import Mathlib

/-!
Verification development for the mcp-gameboy repository.

The TypeScript sources are shallowly embedded as pure Lean functions:

* `GameBoyButton`, `EmuError`, `EmuState` — the data model
  (src/types.ts, src/gameboy.ts).
* `GameBoyEmulator.*` — the emulator wrapper (src/gameboy.ts); the opaque
  serverboy engine is modelled by an explicit `Engine` record whose `render`
  field is the engine's visual output as a function of the loaded ROM and
  the trace of executed frames, and whose `loadOk` field says which ROM
  byte strings the engine accepts.  Each executed frame is recorded in
  `EmuState.trace` together with the input injected during that frame, so
  "how many frames were advanced, with which inputs" is directly observable.
* `EmulatorService.*` — the service layer (src/emulatorService.ts).
* `apiToolHandler` — the HTTP `POST /api/tool` dispatcher (src/ui.ts).
* `mcpGetScreenTool`, `mcpPressTool`, `mcpLoadRomTool` — the MCP tool
  handlers registered in src/tools.ts.
* `handleMessagesPost`, `closeSession` — the SSE session registry
  (src/server/sse.ts).

File system access is modelled by a `FileSystem` parameter: `none` means the
path does not exist, `some none` means it exists but is not readable,
`some (some bytes)` means reading yields `bytes`.  Exceptions are modelled
with `Except`; every operation returns the (possibly unchanged) state next
to its result, mirroring that a thrown JS exception leaves the mutated
fields it did not reach untouched.
-/

namespace GameBoyMcp

/-- Button enumeration from src/types.ts (`export enum GameBoyButton`),
fixed set of 8 values. -/
inductive GameBoyButton
  | UP
  | DOWN
  | LEFT
  | RIGHT
  | A
  | B
  | START
  | SELECT
deriving DecidableEq

/-- String value of each enum member (the TS enum maps each member to the
string of its own name). -/
def GameBoyButton.name : GameBoyButton → String
  | .UP => "UP"
  | .DOWN => "DOWN"
  | .LEFT => "LEFT"
  | .RIGHT => "RIGHT"
  | .A => "A"
  | .B => "B"
  | .START => "START"
  | .SELECT => "SELECT"

/-- `Object.values(GameBoyButton)` in declaration order. -/
def buttonValues : List GameBoyButton :=
  [.UP, .DOWN, .LEFT, .RIGHT, .A, .B, .START, .SELECT]

/-- Membership test plus cast used by the dispatcher:
`(Object.values(GameBoyButton) as string[]).includes(buttonName)` followed by
`buttonName as GameBoyButton` (src/ui.ts). -/
def buttonOfName (s : String) : Option GameBoyButton :=
  buttonValues.find? (fun b => b.name == s)

/-- ASCII upper-casing of one character; models `String.prototype.toUpperCase`
on the ASCII tool names this repository uses. -/
def asciiUpperChar (c : Char) : Char :=
  if 'a' ≤ c ∧ c ≤ 'z' then Char.ofNat (c.toNat - 32) else c

/-- ASCII lower-casing of one character; models `String.prototype.toLowerCase`
on the ASCII button names this repository uses. -/
def asciiLowerChar (c : Char) : Char :=
  if 'A' ≤ c ∧ c ≤ 'Z' then Char.ofNat (c.toNat + 32) else c

/-- Models `s.toUpperCase()` for the ASCII strings involved. -/
def strToUpper (s : String) : String := String.mk (s.data.map asciiUpperChar)

/-- Models `s.toLowerCase()` for the ASCII strings involved. -/
def strToLower (s : String) : String := String.mk (s.data.map asciiLowerChar)

/-- Models `s.startsWith(pre)`: the character list of `pre` is an initial
segment of the character list of `s`. -/
def strStartsWith (pre s : String) : Bool :=
  decide (s.data.take pre.data.length = pre.data)

/-- Models `tool.replace('press_', '')` in the branch where
`tool.startsWith('press_')` already holds: JS `replace` removes the first
occurrence of the pattern, which is then the 6-character prefix. -/
def dropPressPrefix (s : String) : String := String.mk (s.data.drop 6)

/-! ### Screen codec

The pixel-to-PNG-to-base64 conversion is performed by the external `canvas`
collaborator (`canvas.toDataURL('image/png').split(',')[1]` in
src/gameboy.ts).  Modelled from the spec: the Screen Codec "converts the
engine's raw visual buffer into a transportable encoded image"; a PNG byte
stream always begins with the fixed 8-byte PNG signature, and
`toDataURL` yields `data:image/png;base64,<base64 payload>`, of which
`split(',')[1]` keeps exactly the base64 payload. -/

/-- Fixed 8-byte PNG file signature; every encoded image starts with it. -/
def pngSignature : List Nat := [137, 80, 78, 71, 13, 10, 26, 10]

/-- Modelled from the spec: the Screen Codec (external collaborator) turns a
raw pixel buffer into PNG bytes; only the PNG signature prefix is relied on. -/
def pngEncode (buf : List Nat) : List Nat := pngSignature ++ buf

/-- Base64 digit alphabet (RFC 4648). -/
def b64Digit (n : Nat) : Char :=
  "ABCDEFGHIJKLMNOPQRSTUVWXYZabcdefghijklmnopqrstuvwxyz0123456789+/".data.getD n 'A'

/-- Standard base64 encoding of a byte list, as a character list. -/
def b64Chars : List Nat → List Char
  | [] => []
  | [a] => [b64Digit (a / 4 % 64), b64Digit (a % 4 * 16), '=', '=']
  | [a, b] =>
      [b64Digit (a / 4 % 64), b64Digit (a % 4 * 16 + b / 16 % 16),
       b64Digit (b % 16 * 4), '=']
  | a :: b :: c :: rest =>
      b64Digit (a / 4 % 64) :: b64Digit (a % 4 * 16 + b / 16 % 16) ::
      b64Digit (b % 16 * 4 + c / 64 % 4) :: b64Digit (c % 64) :: b64Chars rest

/-- Base64 encoding of a byte list as a string. -/
def base64Encode (bytes : List Nat) : String := String.mk (b64Chars bytes)

/-! ### Emulator data model -/

/-- Error taxonomy realised by the thrown `Error` messages of
src/gameboy.ts and src/emulatorService.ts. -/
inductive EmuError
  | noRomLoaded
  | romNotFound (p : String)
  | loadFailed (p : String)
deriving DecidableEq

/-- The `error.message` string carried by each thrown `Error`. -/
def EmuError.message : EmuError → String
  | .noRomLoaded => "No ROM loaded"
  | .romNotFound p => "ROM file not found: " ++ p
  | .loadFailed p => "Failed to load ROM: " ++ p

/-- State of the single `GameBoyEmulator` instance (src/gameboy.ts):
`romLoaded` and `romPath` are the wrapper's own fields; `rom` and `trace`
model the opaque engine's internal state, `trace` recording, per executed
frame, which button input (if any) was injected during that frame. -/
structure EmuState where
  rom : Option (List Nat)
  trace : List (Option GameBoyButton)
  romLoaded : Bool
  romPath : Option String
deriving DecidableEq

/-- Freshly constructed emulator (`new GameBoyEmulator()`): nothing loaded,
no frames executed. -/
def initState : EmuState :=
  { rom := none, trace := [], romLoaded := false, romPath := none }

/-- The opaque serverboy engine, abstracted per the spec's engine interface:
`loadOk` says which ROM byte strings `gameboy.loadRom` accepts without
throwing, `render` is the deterministic visual buffer exposed by
`gameboy.getScreen()` as a function of the loaded ROM and the executed
frame trace. -/
structure Engine where
  loadOk : List Nat → Bool
  render : Option (List Nat) → List (Option GameBoyButton) → List Nat

/-- File system: `none` = path does not exist, `some none` = exists but a
read throws, `some (some bytes)` = `readFileSync` yields `bytes`. -/
abbrev FileSystem := String → Option (Option (List Nat))

namespace GameBoyEmulator

/-- src/gameboy.ts `loadRom`: `readFileSync` then `gameboy.loadRom`; on
success set `romLoaded = true` and `romPath`; any throw is caught and
re-thrown as `Failed to load ROM`, reaching neither assignment. -/
def loadRom (eng : Engine) (fs : FileSystem) (p : String) (s : EmuState) :
    Except EmuError Unit × EmuState :=
  match fs p with
  | some (some bytes) =>
      if eng.loadOk bytes then
        (Except.ok (),
          { s with rom := some bytes, romLoaded := true, romPath := some p })
      else (Except.error (EmuError.loadFailed p), s)
  | _ => (Except.error (EmuError.loadFailed p), s)

/-- src/gameboy.ts `pressButton`: requires a loaded ROM, then
`pressKeys([key]); doFrame()` — exactly one frame with the input injected. -/
def pressButton (b : GameBoyButton) (s : EmuState) :
    Except EmuError Unit × EmuState :=
  if !s.romLoaded then (Except.error EmuError.noRomLoaded, s)
  else (Except.ok (), { s with trace := s.trace ++ [some b] })

/-- src/gameboy.ts `doFrame`: requires a loaded ROM, then advances exactly
one frame with no input. -/
def doFrame (s : EmuState) : Except EmuError Unit × EmuState :=
  if !s.romLoaded then (Except.error EmuError.noRomLoaded, s)
  else (Except.ok (), { s with trace := s.trace ++ [none] })

/-- src/gameboy.ts `getScreenAsBase64`: requires a loaded ROM, reads the
engine's visual buffer (no frame advance) and returns the base64 payload of
its PNG encoding (the part of `toDataURL('image/png')` after the comma). -/
def getScreenAsBase64 (eng : Engine) (s : EmuState) :
    Except EmuError String × EmuState :=
  if !s.romLoaded then (Except.error EmuError.noRomLoaded, s)
  else (Except.ok (base64Encode (pngEncode (eng.render s.rom s.trace))), s)

end GameBoyEmulator

/-- The MCP `ImageContent` value built by every screen-returning operation. -/
structure ImageContent where
  ctype : String
  data : String
  mimeType : String
deriving DecidableEq

/-- Runs `n` iterations of `for (...) { emulator.doFrame(); }`, an exception
aborting the loop. -/
def doFrames : Nat → EmuState → Except EmuError Unit × EmuState
  | 0, s => (Except.ok (), s)
  | n + 1, s =>
      match GameBoyEmulator.doFrame s with
      | (Except.ok _, s') => doFrames n s'
      | (Except.error e, s') => (Except.error e, s')

namespace EmulatorService

/-- src/emulatorService.ts `getScreen`: precondition check, then
`getScreenAsBase64` wrapped as `ImageContent`; does not advance a frame. -/
def getScreen (eng : Engine) (s : EmuState) :
    Except EmuError ImageContent × EmuState :=
  if !s.romLoaded then (Except.error EmuError.noRomLoaded, s)
  else
    match GameBoyEmulator.getScreenAsBase64 eng s with
    | (Except.ok b64, s') =>
        (Except.ok { ctype := "image", data := b64, mimeType := "image/png" }, s')
    | (Except.error e, s') => (Except.error e, s')

/-- src/emulatorService.ts `loadRom`: `existsSync` guard throwing
`ROM file not found`, then in a try block `emulator.loadRom`, five warm-up
`doFrame`s and `getScreen`; any throw inside the try block is re-thrown as
`Failed to load ROM`. -/
def loadRom (eng : Engine) (fs : FileSystem) (p : String) (s : EmuState) :
    Except EmuError ImageContent × EmuState :=
  if (fs p).isNone then (Except.error (EmuError.romNotFound p), s)
  else
    match GameBoyEmulator.loadRom eng fs p s with
    | (Except.ok _, s1) =>
        match doFrames 5 s1 with
        | (Except.ok _, s2) =>
            match getScreen eng s2 with
            | (Except.ok img, s3) => (Except.ok img, s3)
            | (Except.error _, s3) => (Except.error (EmuError.loadFailed p), s3)
        | (Except.error _, s2) => (Except.error (EmuError.loadFailed p), s2)
    | (Except.error _, s1) => (Except.error (EmuError.loadFailed p), s1)

/-- src/emulatorService.ts `pressButton`: precondition check, one
input-injected frame via the emulator, then `getScreen`. -/
def pressButton (eng : Engine) (b : GameBoyButton) (s : EmuState) :
    Except EmuError ImageContent × EmuState :=
  if !s.romLoaded then (Except.error EmuError.noRomLoaded, s)
  else
    match GameBoyEmulator.pressButton b s with
    | (Except.ok _, s1) => getScreen eng s1
    | (Except.error e, s1) => (Except.error e, s1)

/-- src/emulatorService.ts `waitFrames`: precondition check, then
`for (let i = 0; i < durationFrames; i++) doFrame()` — which executes
`max durationFrames 0` iterations — then `getScreen`. -/
def waitFrames (eng : Engine) (n : Int) (s : EmuState) :
    Except EmuError ImageContent × EmuState :=
  if !s.romLoaded then (Except.error EmuError.noRomLoaded, s)
  else
    match doFrames n.toNat s with
    | (Except.ok _, s1) => getScreen eng s1
    | (Except.error e, s1) => (Except.error e, s1)

/-- src/emulatorService.ts `advanceFrameAndGetScreen`: precondition check,
one inputless frame, then `getScreen`. -/
def advanceFrameAndGetScreen (eng : Engine) (s : EmuState) :
    Except EmuError ImageContent × EmuState :=
  if !s.romLoaded then (Except.error EmuError.noRomLoaded, s)
  else
    match GameBoyEmulator.doFrame s with
    | (Except.ok _, s1) => getScreen eng s1
    | (Except.error e, s1) => (Except.error e, s1)

end EmulatorService

/-! ### HTTP command dispatch (src/ui.ts, `POST /api/tool`) -/

/-- A JSON parameter value as far as the dispatcher inspects it. -/
inductive ParamVal
  | num (n : Int)
  | str (v : String)
  | other
deriving DecidableEq

/-- The `params` object of a `POST /api/tool` request body. -/
structure ToolParams where
  romPath : Option String
  duration_frames : Option ParamVal
deriving DecidableEq

/-- A `POST /api/tool` request body `{tool, params}`; a missing or empty
tool name is modelled by `tool = ""` (both are falsy in JS). -/
structure ToolRequest where
  tool : String
  params : Option ToolParams
deriving DecidableEq

/-- The HTTP response the dispatcher produces: `res.json({content:[img]})`
on success, `res.status(code).json({error: msg})` on failure. -/
inductive ApiResponse
  | ok (img : ImageContent)
  | err (status : Nat) (msg : String)
deriving DecidableEq

/-- `!params || !params.romPath` guard of the `load_rom` case: yields the
path only when present and truthy (non-empty). -/
def reqRomPath (req : ToolRequest) : Option String :=
  match req.params with
  | none => none
  | some pr =>
      match pr.romPath with
      | some p => if p = "" then none else some p
      | none => none

/-- `params?.duration_frames ?? dflt` followed by the
`typeof v !== 'number'` test: `none` when the supplied value is not a
number, otherwise the number (defaulting to `dflt` when absent). -/
def reqDuration (req : ToolRequest) (dflt : Int) : Option Int :=
  match req.params with
  | none => some dflt
  | some pr =>
      match pr.duration_frames with
      | none => some dflt
      | some (ParamVal.num n) => some n
      | some _ => none

/-- Converts a service result into the HTTP response: success becomes
`res.json({content:[result]})`, a thrown error is caught and becomes
status 500 with `Failed to call tool: <message>`. -/
def wrapResult (r : Except EmuError ImageContent × EmuState) :
    ApiResponse × EmuState :=
  match r with
  | (Except.ok img, s) => (ApiResponse.ok img, s)
  | (Except.error e, s) =>
      (ApiResponse.err 500 ("Failed to call tool: " ++ e.message), s)

/-- The `default:` branch of the dispatcher for tools starting with
`press_` (src/ui.ts): uppercase the remainder, validate it against the
button enumeration, validate `duration_frames`, then
`pressButton`, `waitFrames(duration - 1)` when the duration exceeds 1,
and finally `getScreen`. -/
def pressDispatch (eng : Engine) (req : ToolRequest) (s : EmuState) :
    ApiResponse × EmuState :=
  let buttonName := strToUpper (dropPressPrefix req.tool)
  match buttonOfName buttonName with
  | none => (ApiResponse.err 400 ("Invalid button: " ++ buttonName), s)
  | some b =>
      match reqDuration req 1 with
      | none => (ApiResponse.err 400 "Invalid duration_frames for press", s)
      | some n =>
          if n ≤ 0 then
            (ApiResponse.err 400 "Invalid duration_frames for press", s)
          else
            match EmulatorService.pressButton eng b s with
            | (Except.error e, s1) =>
                (ApiResponse.err 500 ("Failed to call tool: " ++ e.message), s1)
            | (Except.ok _, s1) =>
                if n > 1 then
                  match EmulatorService.waitFrames eng (n - 1) s1 with
                  | (Except.error e, s2) =>
                      (ApiResponse.err 500 ("Failed to call tool: " ++ e.message), s2)
                  | (Except.ok _, s2) => wrapResult (EmulatorService.getScreen eng s2)
                else wrapResult (EmulatorService.getScreen eng s1)

/-- The `apiToolHandler` of src/ui.ts (`POST /api/tool`): missing tool name
guard, then the loaded-precondition guard for every tool except `load_rom`,
then the `switch` over `get_screen`, `load_rom`, `wait_frames` and the
`press_` / unknown default branch. -/
def apiToolHandler (eng : Engine) (fs : FileSystem) (req : ToolRequest)
    (s : EmuState) : ApiResponse × EmuState :=
  if req.tool = "" then (ApiResponse.err 400 "Tool name is required", s)
  else if s.romLoaded = false ∧ req.tool ≠ "load_rom" then
    (ApiResponse.err 400 "No ROM loaded", s)
  else if req.tool = "get_screen" then
    wrapResult (EmulatorService.getScreen eng s)
  else if req.tool = "load_rom" then
    match reqRomPath req with
    | none => (ApiResponse.err 400 "ROM path is required", s)
    | some p => wrapResult (EmulatorService.loadRom eng fs p s)
  else if req.tool = "wait_frames" then
    match reqDuration req 100 with
    | none => (ApiResponse.err 400 "Invalid duration_frames", s)
    | some n =>
        if n ≤ 0 then (ApiResponse.err 400 "Invalid duration_frames", s)
        else wrapResult (EmulatorService.waitFrames eng n s)
  else if strStartsWith "press_" req.tool then pressDispatch eng req s
  else (ApiResponse.err 400 ("Unknown tool: " ++ req.tool), s)

/-! ### MCP tool handlers (src/tools.ts, `registerGameBoyTools`)

These operate directly on the `GameBoyEmulator` instance. -/

/-- The `get_screen` MCP tool: loaded guard, then `emulator.doFrame()`
("Advance one frame to update the screen") and `getScreenAsBase64`. -/
def mcpGetScreenTool (eng : Engine) (s : EmuState) :
    Except EmuError ImageContent × EmuState :=
  if !s.romLoaded then (Except.error EmuError.noRomLoaded, s)
  else
    match GameBoyEmulator.doFrame s with
    | (Except.ok _, s1) =>
        match GameBoyEmulator.getScreenAsBase64 eng s1 with
        | (Except.ok b64, s2) =>
            (Except.ok { ctype := "image", data := b64, mimeType := "image/png" }, s2)
        | (Except.error e, s2) => (Except.error e, s2)
    | (Except.error e, s1) => (Except.error e, s1)

/-- One `press_<button>` MCP tool: loaded guard, `emulator.pressButton`
(one input-injected frame) and `getScreenAsBase64`. -/
def mcpPressTool (eng : Engine) (b : GameBoyButton) (s : EmuState) :
    Except EmuError ImageContent × EmuState :=
  if !s.romLoaded then (Except.error EmuError.noRomLoaded, s)
  else
    match GameBoyEmulator.pressButton b s with
    | (Except.ok _, s1) =>
        match GameBoyEmulator.getScreenAsBase64 eng s1 with
        | (Except.ok b64, s2) =>
            (Except.ok { ctype := "image", data := b64, mimeType := "image/png" }, s2)
        | (Except.error e, s2) => (Except.error e, s2)
    | (Except.error e, s1) => (Except.error e, s1)

/-- The `load_rom` MCP tool: `emulator.loadRom`, five warm-up frames, then
the screen; any throw propagates to the MCP framework. -/
def mcpLoadRomTool (eng : Engine) (fs : FileSystem) (p : String) (s : EmuState) :
    Except EmuError ImageContent × EmuState :=
  match GameBoyEmulator.loadRom eng fs p s with
  | (Except.ok _, s1) =>
      match doFrames 5 s1 with
      | (Except.ok _, s2) =>
          match GameBoyEmulator.getScreenAsBase64 eng s2 with
          | (Except.ok b64, s3) =>
              (Except.ok { ctype := "image", data := b64, mimeType := "image/png" }, s3)
          | (Except.error e, s3) => (Except.error e, s3)
      | (Except.error e, s2) => (Except.error e, s2)
  | (Except.error e, s1) => (Except.error e, s1)

/-! ### SSE session registry (src/server/sse.ts) -/

/-- The `transports` record keyed by session id; only the key set matters
for the session claims, the transport values being opaque. -/
abbrev SessionRegistry := List String

/-- `transports[sessionId] = transport` on stream establishment. -/
def registerSession (reg : SessionRegistry) (sid : String) : SessionRegistry :=
  sid :: reg

/-- `transport.onclose`: `delete transports[sessionId]` removes the key. -/
def closeSession (reg : SessionRegistry) (sid : String) : SessionRegistry :=
  reg.filter (fun x => x ≠ sid)

/-- Outcome of the `POST /messages` handler. -/
inductive PostOutcome
  | missingSession
  | sessionNotFound
  | forwarded (sid : String)
deriving DecidableEq

/-- The `POST /messages` handler of src/server/sse.ts: missing (falsy)
`sessionId` query parameter yields 400; an id absent from `transports`
yields 404 `Session not found` without touching any transport or the
emulator; otherwise the message is forwarded to that session's transport. -/
def handleMessagesPost (reg : SessionRegistry) (sessionId : Option String) :
    PostOutcome :=
  match sessionId with
  | none => PostOutcome.missingSession
  | some sid =>
      if sid = "" then PostOutcome.missingSession
      else if reg.contains sid then PostOutcome.forwarded sid
      else PostOutcome.sessionNotFound

/-! ### Operation enumeration over the emulator wrapper (for invariants) -/

/-- Every public operation of `GameBoyEmulator` (src/gameboy.ts). -/
inductive EmuOp
  | load (p : String)
  | press (b : GameBoyButton)
  | frame
  | screen
deriving DecidableEq

/-- State after running one `GameBoyEmulator` operation (successful or
thrown). -/
def runOp (eng : Engine) (fs : FileSystem) : EmuOp → EmuState → EmuState
  | EmuOp.load p, s => (GameBoyEmulator.loadRom eng fs p s).2
  | EmuOp.press b, s => (GameBoyEmulator.pressButton b s).2
  | EmuOp.frame, s => (GameBoyEmulator.doFrame s).2
  | EmuOp.screen, s => (GameBoyEmulator.getScreenAsBase64 eng s).2

/-- State after running a sequence of `GameBoyEmulator` operations. -/
def runOps (eng : Engine) (fs : FileSystem) (ops : List EmuOp) (s : EmuState) :
    EmuState :=
  ops.foldl (fun t op => runOp eng fs op t) s

/-! ### Concrete test doubles used by witnesses -/

/-- Test double of the opaque engine, per the spec's design note that a
step-counting test double substitutes transparently: it accepts every ROM
and renders the frame count. -/
def testEngine : Engine :=
  { loadOk := fun _ => true, render := fun _ tr => [tr.length % 256] }

/-- Test double file system with one readable ROM and one unreadable path. -/
def testFs : FileSystem := fun p =>
  if p = "roms/test.gb" then some (some [1, 2, 3])
  else if p = "roms/locked.gb" then some none
  else none

/-- A state in which `roms/test.gb` has just been loaded. -/
def loadedState : EmuState :=
  { rom := some [1, 2, 3], trace := [], romLoaded := true,
    romPath := some "roms/test.gb" }

/-- The snapshot `ImageContent` determined by an engine and a state. -/
def snapshotOf (eng : Engine) (s : EmuState) : ImageContent :=
  { ctype := "image", data := base64Encode (pngEncode (eng.render s.rom s.trace)),
    mimeType := "image/png" }

/-- State after a successful `EmulatorService.loadRom` of `bytes` at `p`
starting from `s`: ROM resident, flags set, five warm-up frames executed. -/
def postLoadState (bytes : List Nat) (p : String) (s : EmuState) : EmuState :=
  { rom := some bytes, trace := s.trace ++ List.replicate 5 none,
    romLoaded := true, romPath := some p }

/-- The `GET /api/status` handler of src/ui.ts: reports
`emulatorService.isRomLoaded()` and `emulatorService.getRomPath()`,
i.e. the `{loaded, imagePath}` pair of the spec's status query. -/
def apiStatusHandler (s : EmuState) : Bool × Option String :=
  (s.romLoaded, s.romPath)

/-! ### Helper lemmas -/

theorem press_append_ne_empty (r : String) : ("press_" ++ r) ≠ "" := by
  intro h
  have h2 := congrArg String.data h
  rw [String.data_append] at h2
  simp at h2

theorem press_append_ne_get (r : String) : ("press_" ++ r) ≠ "get_screen" := by
  intro h
  have h2 := congrArg String.data h
  rw [String.data_append] at h2
  simp at h2

theorem press_append_ne_load (r : String) : ("press_" ++ r) ≠ "load_rom" := by
  intro h
  have h2 := congrArg String.data h
  rw [String.data_append] at h2
  simp at h2

theorem press_append_ne_wait (r : String) : ("press_" ++ r) ≠ "wait_frames" := by
  intro h
  have h2 := congrArg String.data h
  rw [String.data_append] at h2
  simp at h2

theorem press_append_startsWith (r : String) :
    strStartsWith "press_" ("press_" ++ r) = true := by
  simp [strStartsWith, String.data_append]

theorem dropPressPrefix_append (r : String) :
    dropPressPrefix ("press_" ++ r) = r := by
  simp [dropPressPrefix, String.data_append]

theorem b64Chars_ne_nil (l : List Nat) (h : l ≠ []) : b64Chars l ≠ [] := by
  match l with
  | [] => exact absurd rfl h
  | [a] => simp [b64Chars]
  | [a, b] => simp [b64Chars]
  | a :: b :: c :: rest => simp [b64Chars]

theorem base64Encode_ne_empty (l : List Nat) (h : l ≠ []) :
    base64Encode l ≠ "" := by
  intro he
  have h2 := congrArg String.data he
  simp [base64Encode] at h2
  exact b64Chars_ne_nil l h h2

theorem pngEncode_ne_nil (buf : List Nat) : pngEncode buf ≠ [] := by
  simp [pngEncode, pngSignature]

theorem snapshotOf_data_ne_empty (eng : Engine) (s : EmuState) :
    (snapshotOf eng s).data ≠ "" :=
  base64Encode_ne_empty _ (pngEncode_ne_nil _)

theorem upper_lower_name (b : GameBoyButton) :
    strToUpper (strToLower b.name) = b.name := by
  cases b <;> decide

theorem buttonOfName_name (b : GameBoyButton) :
    buttonOfName b.name = some b := by
  cases b <;> decide

theorem doFrame_loaded (s : EmuState) (h : s.romLoaded = true) :
    GameBoyEmulator.doFrame s =
      (Except.ok (), { s with trace := s.trace ++ [none] }) := by
  simp [GameBoyEmulator.doFrame, h]

theorem doFrames_loaded (m : Nat) (s : EmuState) (h : s.romLoaded = true) :
    doFrames m s =
      (Except.ok (), { s with trace := s.trace ++ List.replicate m none }) := by
  induction m generalizing s with
  | zero => simp [doFrames]
  | succ n ih =>
      simp only [doFrames, doFrame_loaded s h]
      rw [ih _ (by simp [h])]
      simp [List.replicate_succ, List.append_assoc]

theorem getScreen_loaded (eng : Engine) (s : EmuState) (h : s.romLoaded = true) :
    EmulatorService.getScreen eng s = (Except.ok (snapshotOf eng s), s) := by
  simp [EmulatorService.getScreen, GameBoyEmulator.getScreenAsBase64, h, snapshotOf]

theorem waitFrames_loaded (eng : Engine) (n : Int) (s : EmuState)
    (h : s.romLoaded = true) :
    EmulatorService.waitFrames eng n s =
      (Except.ok (snapshotOf eng
          { s with trace := s.trace ++ List.replicate n.toNat none }),
        { s with trace := s.trace ++ List.replicate n.toNat none }) := by
  simp [EmulatorService.waitFrames, h, doFrames_loaded n.toNat s h]
  exact getScreen_loaded eng _ rfl

theorem pressButton_loaded (eng : Engine) (b : GameBoyButton) (s : EmuState)
    (h : s.romLoaded = true) :
    EmulatorService.pressButton eng b s =
      (Except.ok (snapshotOf eng { s with trace := s.trace ++ [some b] }),
        { s with trace := s.trace ++ [some b] }) := by
  simp [EmulatorService.pressButton, GameBoyEmulator.pressButton, h]
  exact getScreen_loaded eng _ rfl

/-! ### Claims -/

/-- C1: every command other than `load_rom` dispatched through
`POST /api/tool` while no ROM is loaded gets the structured
`No ROM loaded` error, and the emulator state — `romLoaded`, `romPath`
and the engine frame trace — is returned unchanged, so zero engine frames
are advanced. -/
theorem claim_C1_not_loaded_guard (eng : Engine) (fs : FileSystem)
    (req : ToolRequest) (s : EmuState) (hload : s.romLoaded = false)
    (hname : req.tool ≠ "") (hnl : req.tool ≠ "load_rom") :
    apiToolHandler eng fs req s = (ApiResponse.err 400 "No ROM loaded", s) := by
  simp [apiToolHandler, hname, hload, hnl]

/-- Witness for C1: dispatching `press_a` on the fresh (unloaded) state. -/
theorem claim_C1_witness :
    initState.romLoaded = false ∧
    apiToolHandler testEngine testFs { tool := "press_a", params := none }
        initState = (ApiResponse.err 400 "No ROM loaded", initState) :=
  ⟨rfl, claim_C1_not_loaded_guard testEngine testFs _ _ rfl (by decide) (by decide)⟩

/-- C2: `EmulatorService.loadRom` fails with the `ROM file not found` error
and leaves the state (hence the frame trace) unchanged when the path does
not exist (an existing-but-unreadable path also fails, with the wrapped
load error, likewise leaving the state unchanged); on a successful load it
sets `romLoaded = true` and `romPath = path` — so the status query reports
`{loaded: true, imagePath: path}` — advances exactly the fixed warm-up
count of 5 frames, and returns the snapshot of the resulting state. -/
theorem claim_C2_load_rom (eng : Engine) (fs : FileSystem) (p : String)
    (s : EmuState) :
    (fs p = none →
      EmulatorService.loadRom eng fs p s =
        (Except.error (EmuError.romNotFound p), s)) ∧
    (fs p = some none →
      EmulatorService.loadRom eng fs p s =
        (Except.error (EmuError.loadFailed p), s)) ∧
    (∀ bytes, fs p = some (some bytes) → eng.loadOk bytes = true →
      EmulatorService.loadRom eng fs p s =
        (Except.ok (snapshotOf eng (postLoadState bytes p s)),
          postLoadState bytes p s) ∧
      apiStatusHandler (postLoadState bytes p s) = (true, some p) ∧
      (postLoadState bytes p s).trace = s.trace ++ List.replicate 5 none) := by
  refine ⟨?_, ?_, ?_⟩
  · intro h
    simp [EmulatorService.loadRom, h]
  · intro h
    simp [EmulatorService.loadRom, GameBoyEmulator.loadRom, h]
  · intro bytes hb hok
    refine ⟨?_, rfl, rfl⟩
    rw [EmulatorService.loadRom]
    simp only [hb, Option.isNone_some, GameBoyEmulator.loadRom, hok, if_true]
    rw [doFrames_loaded 5 _ rfl]
    simp only []
    rw [getScreen_loaded eng _ rfl]
    rfl

/-- Witness for C2: a missing path fails with not-found; loading the test
ROM succeeds with 5 warm-up frames. -/
theorem claim_C2_witness :
    testFs "missing.gb" = none ∧
    EmulatorService.loadRom testEngine testFs "missing.gb" initState =
      (Except.error (EmuError.romNotFound "missing.gb"), initState) ∧
    EmulatorService.loadRom testEngine testFs "roms/test.gb" initState =
      (Except.ok (snapshotOf testEngine
          (postLoadState [1, 2, 3] "roms/test.gb" initState)),
        postLoadState [1, 2, 3] "roms/test.gb" initState) :=
  ⟨rfl,
   (claim_C2_load_rom testEngine testFs "missing.gb" initState).1 rfl,
   ((claim_C2_load_rom testEngine testFs "roms/test.gb" initState).2.2
      [1, 2, 3] rfl rfl).1⟩

/-- C10: at `POST /api/tool`, a `press_<x>` command whose uppercased `<x>`
is not one of the 8 `GameBoyButton` values (with a ROM loaded, so the
loaded-guard does not fire first) returns the structured 400
`Invalid button` error, performs zero engine steps and leaves the emulator
state unchanged. -/
theorem claim_C10_invalid_button (eng : Engine) (fs : FileSystem)
    (rest : String) (params : Option ToolParams) (s : EmuState)
    (hload : s.romLoaded = true)
    (hbad : buttonOfName (strToUpper rest) = none) :
    apiToolHandler eng fs { tool := "press_" ++ rest, params := params } s =
      (ApiResponse.err 400 ("Invalid button: " ++ strToUpper rest), s) := by
  simp [apiToolHandler, press_append_ne_empty, press_append_ne_get,
    press_append_ne_load, press_append_ne_wait, press_append_startsWith,
    hload, pressDispatch, dropPressPrefix_append, hbad]

/-- Witness for C10: `press_turbo` with a loaded ROM. -/
theorem claim_C10_witness :
    loadedState.romLoaded = true ∧
    buttonOfName (strToUpper "turbo") = none ∧
    apiToolHandler testEngine testFs
        { tool := "press_" ++ "turbo", params := none } loadedState =
      (ApiResponse.err 400 ("Invalid button: " ++ strToUpper "turbo"),
        loadedState) :=
  ⟨rfl, by decide,
   claim_C10_invalid_button testEngine testFs "turbo" none loadedState rfl
     (by decide)⟩

/-- C4: a `wait_frames` command with `duration_frames = n ≤ 0` dispatched
with a ROM loaded returns the structured 400 `Invalid duration_frames`
error with zero engine steps and unchanged state; with `n > 0` it advances
exactly `n` frames with no input and returns the snapshot of the resulting
state. -/
theorem claim_C4_wait_frames (eng : Engine) (fs : FileSystem)
    (rp : Option String) (n : Int) (s : EmuState) (hload : s.romLoaded = true) :
    (n ≤ 0 →
      apiToolHandler eng fs
          { tool := "wait_frames",
            params := some { romPath := rp,
                             duration_frames := some (ParamVal.num n) } } s =
        (ApiResponse.err 400 "Invalid duration_frames", s)) ∧
    (0 < n →
      apiToolHandler eng fs
          { tool := "wait_frames",
            params := some { romPath := rp,
                             duration_frames := some (ParamVal.num n) } } s =
        (ApiResponse.ok (snapshotOf eng
            { s with trace := s.trace ++ List.replicate n.toNat none }),
          { s with trace := s.trace ++ List.replicate n.toNat none })) := by
  constructor
  · intro hn
    simp [apiToolHandler, hload, reqDuration, hn]
  · intro hn
    have hn' : ¬ (n ≤ 0) := by omega
    simp [apiToolHandler, hload, reqDuration, hn', wrapResult,
      waitFrames_loaded eng n s hload]

/-- Witness for C4: `duration_frames = 0` is rejected with zero steps and
`duration_frames = 3` advances exactly three inputless frames. -/
theorem claim_C4_witness :
    loadedState.romLoaded = true ∧
    apiToolHandler testEngine testFs
        { tool := "wait_frames",
          params := some { romPath := none,
                           duration_frames := some (ParamVal.num 0) } }
        loadedState =
      (ApiResponse.err 400 "Invalid duration_frames", loadedState) ∧
    apiToolHandler testEngine testFs
        { tool := "wait_frames",
          params := some { romPath := none,
                           duration_frames := some (ParamVal.num 3) } }
        loadedState =
      (ApiResponse.ok (snapshotOf testEngine
          { loadedState with
              trace := loadedState.trace ++ List.replicate (Int.toNat 3) none }),
        { loadedState with
            trace := loadedState.trace ++ List.replicate (Int.toNat 3) none }) :=
  ⟨rfl,
   (claim_C4_wait_frames testEngine testFs none 0 loadedState rfl).1 (by decide),
   (claim_C4_wait_frames testEngine testFs none 3 loadedState rfl).2 (by decide)⟩

/-- C5: with a ROM loaded, `EmulatorService.getScreen` (the no-advance
`get_screen` dispatched through `POST /api/tool`) returns the current
snapshot without changing any state — in particular it advances zero engine
frames — so dispatching it twice in a row is idempotent and yields the same
bytes both times, and the snapshot's base64 payload is non-empty. -/
theorem claim_C5_snapshot_read_only (eng : Engine) (fs : FileSystem)
    (params : Option ToolParams) (s : EmuState) (hload : s.romLoaded = true) :
    EmulatorService.getScreen eng s = (Except.ok (snapshotOf eng s), s) ∧
    apiToolHandler eng fs { tool := "get_screen", params := params } s =
      (ApiResponse.ok (snapshotOf eng s), s) ∧
    apiToolHandler eng fs { tool := "get_screen", params := params }
        (apiToolHandler eng fs { tool := "get_screen", params := params } s).2 =
      apiToolHandler eng fs { tool := "get_screen", params := params } s ∧
    (snapshotOf eng s).data ≠ "" := by
  have hd : apiToolHandler eng fs { tool := "get_screen", params := params } s =
      (ApiResponse.ok (snapshotOf eng s), s) := by
    simp [apiToolHandler, hload, wrapResult, getScreen_loaded eng s hload]
  refine ⟨getScreen_loaded eng s hload, hd, ?_, snapshotOf_data_ne_empty eng s⟩
  rw [hd]
  exact hd

/-- Witness for C5: two consecutive no-advance `get_screen` dispatches on
the freshly loaded test state. -/
theorem claim_C5_witness :
    loadedState.romLoaded = true ∧
    apiToolHandler testEngine testFs { tool := "get_screen", params := none }
        loadedState = (ApiResponse.ok (snapshotOf testEngine loadedState),
          loadedState) ∧
    (snapshotOf testEngine loadedState).data ≠ "" :=
  ⟨rfl,
   (claim_C5_snapshot_read_only testEngine testFs none loadedState rfl).2.1,
   (claim_C5_snapshot_read_only testEngine testFs none loadedState rfl).2.2.2⟩

/-- C3: a `press_<button>` command with hold duration `n ≥ 1` dispatched
through `POST /api/tool` with a ROM loaded advances the engine by exactly
`n` discrete steps in total: one step with the button input asserted
followed by `n - 1` free-running steps with no input — the input is
injected only on the first of the `n` frames — and returns the snapshot of
the resulting state. -/
theorem claim_C3_press_hold (eng : Engine) (fs : FileSystem)
    (b : GameBoyButton) (rp : Option String) (n : Int) (s : EmuState)
    (hload : s.romLoaded = true) (hn : 1 ≤ n) :
    apiToolHandler eng fs
        { tool := "press_" ++ strToLower b.name,
          params := some { romPath := rp,
                           duration_frames := some (ParamVal.num n) } } s =
      (ApiResponse.ok (snapshotOf eng
          { s with trace :=
              s.trace ++ some b :: List.replicate (n - 1).toNat none }),
        { s with trace :=
            s.trace ++ some b :: List.replicate (n - 1).toNat none }) := by
  have h2 : ¬ (n ≤ 0) := by omega
  by_cases h1 : 1 < n
  · simp [apiToolHandler, press_append_ne_empty, press_append_ne_get,
      press_append_ne_load, press_append_ne_wait, press_append_startsWith,
      hload, pressDispatch, dropPressPrefix_append, upper_lower_name,
      buttonOfName_name, reqDuration, h2, h1,
      pressButton_loaded eng b s hload, waitFrames_loaded, wrapResult,
      getScreen_loaded, List.append_assoc]
  · have h3 : n = 1 := by omega
    subst h3
    simp [apiToolHandler, press_append_ne_empty, press_append_ne_get,
      press_append_ne_load, press_append_ne_wait, press_append_startsWith,
      hload, pressDispatch, dropPressPrefix_append, upper_lower_name,
      buttonOfName_name, reqDuration, h2,
      pressButton_loaded eng b s hload, wrapResult, getScreen_loaded]

/-- Witness for C3: `press_a` with `duration_frames = 5` starting from the
loaded test state executes 5 frames, the first with the A input. -/
theorem claim_C3_witness :
    loadedState.romLoaded = true ∧ (1 : Int) ≤ 5 ∧
    apiToolHandler testEngine testFs
        { tool := "press_" ++ strToLower (GameBoyButton.name .A),
          params := some { romPath := none,
                           duration_frames := some (ParamVal.num 5) } }
        loadedState =
      (ApiResponse.ok (snapshotOf testEngine
          { loadedState with
              trace := loadedState.trace ++
                (some GameBoyButton.A ::
                  List.replicate (Int.toNat (5 - 1)) none) }),
        { loadedState with
            trace := loadedState.trace ++
              (some GameBoyButton.A ::
                List.replicate (Int.toNat (5 - 1)) none) }) :=
  ⟨rfl, by decide,
   claim_C3_press_hold testEngine testFs .A none 5 loadedState rfl (by decide)⟩

/-- C6 counterexample: the unknown command name `foobar` dispatched while
no ROM is loaded yields the `No ROM loaded` error, not the
`Unknown tool: foobar` error — the loaded-precondition check fires before
command-name resolution, refuting the claim that an unknown name never
yields the not-loaded error. -/
theorem claim_C6_counterexample :
    apiToolHandler testEngine testFs { tool := "foobar", params := none }
        initState = (ApiResponse.err 400 "No ROM loaded", initState) ∧
    (apiToolHandler testEngine testFs { tool := "foobar", params := none }
        initState).1 ≠ ApiResponse.err 400 ("Unknown tool: " ++ "foobar") := by
  constructor
  · decide
  · decide

/-- C6 (amended): in the `POST /api/tool` dispatcher the loaded-precondition
check runs before command-name resolution: with a ROM loaded, a name that
matches no registered command returns the `Unknown tool` error; with no ROM
loaded the same name returns the `No ROM loaded` error instead. -/
theorem claim_C6_amended_dispatch_order (eng : Engine) (fs : FileSystem)
    (req : ToolRequest) (s : EmuState) (h1 : req.tool ≠ "")
    (h2 : req.tool ≠ "get_screen") (h3 : req.tool ≠ "load_rom")
    (h4 : req.tool ≠ "wait_frames")
    (h5 : strStartsWith "press_" req.tool = false) :
    (s.romLoaded = true →
      apiToolHandler eng fs req s =
        (ApiResponse.err 400 ("Unknown tool: " ++ req.tool), s)) ∧
    (s.romLoaded = false →
      apiToolHandler eng fs req s =
        (ApiResponse.err 400 "No ROM loaded", s)) := by
  constructor
  · intro hl
    simp [apiToolHandler, h1, h2, h3, h4, h5, hl]
  · intro hl
    simp [apiToolHandler, h1, h3, hl]

/-- Witness for the amended C6: `frobnicate` on a loaded and on an unloaded
state. -/
theorem claim_C6_amended_witness :
    loadedState.romLoaded = true ∧
    apiToolHandler testEngine testFs { tool := "frobnicate", params := none }
        loadedState =
      (ApiResponse.err 400 ("Unknown tool: " ++ "frobnicate"), loadedState) ∧
    apiToolHandler testEngine testFs { tool := "frobnicate", params := none }
        initState = (ApiResponse.err 400 "No ROM loaded", initState) :=
  ⟨rfl,
   (claim_C6_amended_dispatch_order testEngine testFs
      { tool := "frobnicate", params := none } loadedState (by decide)
      (by decide) (by decide) (by decide) (by decide)).1 rfl,
   (claim_C6_amended_dispatch_order testEngine testFs
      { tool := "frobnicate", params := none } initState (by decide)
      (by decide) (by decide) (by decide) (by decide)).2 rfl⟩

/-- C7 counterexample: from the same loaded state, `get_screen` through the
MCP tool registry advances one engine frame (the trace grows by one
inputless entry) while `get_screen` through `POST /api/tool` advances zero
frames — so the two transports do not advance the same number of frames. -/
theorem claim_C7_counterexample :
    (mcpGetScreenTool testEngine loadedState).2.trace = [none] ∧
    (apiToolHandler testEngine testFs { tool := "get_screen", params := none }
        loadedState).2.trace = [] ∧
    ([none] : List (Option GameBoyButton)) ≠ [] := by
  refine ⟨by decide, by decide, by decide⟩

/-- C7 (amended): the two transports carrying `get_screen` differ: the MCP
tool advances exactly one inputless frame and returns the post-advance
snapshot, while the HTTP `POST /api/tool` variant advances zero frames and
returns the snapshot of the unchanged current state. -/
theorem claim_C7_transport_difference (eng : Engine) (fs : FileSystem)
    (params : Option ToolParams) (s : EmuState) (hload : s.romLoaded = true) :
    mcpGetScreenTool eng s =
      (Except.ok (snapshotOf eng { s with trace := s.trace ++ [none] }),
        { s with trace := s.trace ++ [none] }) ∧
    apiToolHandler eng fs { tool := "get_screen", params := params } s =
      (ApiResponse.ok (snapshotOf eng s), s) := by
  constructor
  · simp [mcpGetScreenTool, hload, doFrame_loaded s hload,
      GameBoyEmulator.getScreenAsBase64, snapshotOf]
  · simp [apiToolHandler, hload, wrapResult, getScreen_loaded eng s hload]

/-- Witness for the amended C7: both transports on the loaded test state. -/
theorem claim_C7_amended_witness :
    loadedState.romLoaded = true ∧
    mcpGetScreenTool testEngine loadedState =
      (Except.ok (snapshotOf testEngine
          { loadedState with trace := loadedState.trace ++ [none] }),
        { loadedState with trace := loadedState.trace ++ [none] }) ∧
    apiToolHandler testEngine testFs { tool := "get_screen", params := none }
        loadedState =
      (ApiResponse.ok (snapshotOf testEngine loadedState), loadedState) :=
  ⟨rfl,
   (claim_C7_transport_difference testEngine testFs none loadedState rfl).1,
   (claim_C7_transport_difference testEngine testFs none loadedState rfl).2⟩

/-- C8: in the SSE transport, closing a session removes its id from the
`transports` registry; every subsequent `POST /messages` tagged with that
id gets the 404 `Session not found` outcome, and a message is forwarded to
a transport only when its session id is registered — an unknown id is never
queued, retried, or executed. -/
theorem claim_C8_session_close (reg : SessionRegistry) (sid : String)
    (h : sid ≠ "") :
    (closeSession reg sid).contains sid = false ∧
    handleMessagesPost (closeSession reg sid) (some sid) =
      PostOutcome.sessionNotFound ∧
    (∀ reg' q x, handleMessagesPost reg' q = PostOutcome.forwarded x →
      reg'.contains x = true) := by
  have hc' : sid ∉ closeSession reg sid := by simp [closeSession]
  have hc : (closeSession reg sid).contains sid = false := by
    simp [closeSession]
  refine ⟨hc, by simp [handleMessagesPost, h, hc'], ?_⟩
  intro reg' q x hf
  cases q with
  | none => simp [handleMessagesPost] at hf
  | some sid' =>
      by_cases hs : sid' = ""
      · simp [handleMessagesPost, hs] at hf
      · by_cases hm : sid' ∈ reg'
        · simp [handleMessagesPost, hs, hm] at hf
          subst hf
          simpa using hm
        · simp [handleMessagesPost, hs, hm] at hf

/-- Witness for C8: closing session `abc` in a two-session registry makes a
subsequent post with id `abc` fail with session-not-found. -/
theorem claim_C8_witness :
    ("abc" : String) ≠ "" ∧
    (closeSession ["abc", "def"] "abc").contains "abc" = false ∧
    handleMessagesPost (closeSession ["abc", "def"] "abc") (some "abc") =
      PostOutcome.sessionNotFound :=
  ⟨by decide,
   (claim_C8_session_close ["abc", "def"] "abc" (by decide)).1,
   (claim_C8_session_close ["abc", "def"] "abc" (by decide)).2.1⟩

/-- C9: the `romLoaded` flag of the `GameBoyEmulator` wrapper is monotone:
every operation — including a later `loadRom` whose file read or engine
load throws — preserves `romLoaded = true` (also along any sequence of
operations), and `romPath` changes only when a `loadRom` succeeds, in which
case it becomes the loaded path. -/
theorem claim_C9_loaded_monotone (eng : Engine) (fs : FileSystem) :
    (∀ op s, s.romLoaded = true → (runOp eng fs op s).romLoaded = true) ∧
    (∀ op s, (runOp eng fs op s).romPath ≠ s.romPath →
      ∃ p, op = EmuOp.load p ∧
        (GameBoyEmulator.loadRom eng fs p s).1 = Except.ok () ∧
        (runOp eng fs op s).romPath = some p) ∧
    (∀ ops s, s.romLoaded = true → (runOps eng fs ops s).romLoaded = true) := by
  have hstep : ∀ op s, s.romLoaded = true →
      (runOp eng fs op s).romLoaded = true := by
    intro op s h
    cases op with
    | load p =>
        simp only [runOp, GameBoyEmulator.loadRom]
        cases hf : fs p with
        | none => simpa using h
        | some ob =>
            cases ob with
            | none => simpa using h
            | some bytes =>
                by_cases hok : eng.loadOk bytes = true
                · simp [hok]
                · simp [hok, h]
    | press b =>
        simp only [runOp, GameBoyEmulator.pressButton]
        split <;> simpa using h
    | frame =>
        simp only [runOp, GameBoyEmulator.doFrame]
        split <;> simpa using h
    | screen =>
        simp only [runOp, GameBoyEmulator.getScreenAsBase64]
        split <;> simpa using h
  refine ⟨hstep, ?_, ?_⟩
  · intro op s hne
    cases op with
    | load p =>
        refine ⟨p, rfl, ?_, ?_⟩ <;>
          · simp only [runOp, GameBoyEmulator.loadRom] at hne ⊢
            cases hf : fs p with
            | none => simp [hf] at hne
            | some ob =>
                cases ob with
                | none => simp [hf] at hne
                | some bytes =>
                    by_cases hok : eng.loadOk bytes = true
                    · simp [hf, hok]
                    · simp [hf, hok] at hne
    | press b =>
        exfalso
        apply hne
        simp only [runOp, GameBoyEmulator.pressButton]
        split <;> rfl
    | frame =>
        exfalso
        apply hne
        simp only [runOp, GameBoyEmulator.doFrame]
        split <;> rfl
    | screen =>
        exfalso
        apply hne
        simp only [runOp, GameBoyEmulator.getScreenAsBase64]
        split <;> rfl
  · intro ops
    induction ops with
    | nil => intro s h; simpa [runOps] using h
    | cons op rest ih =>
        intro s h
        have h1 := hstep op s h
        simpa [runOps] using ih _ h1

/-- Witness for C9: a loaded state survives a frame, a press, and a later
load whose path does not exist. -/
theorem claim_C9_witness :
    loadedState.romLoaded = true ∧
    (runOp testEngine testFs (EmuOp.load "missing.gb") loadedState).romLoaded =
      true ∧
    (runOps testEngine testFs
        [EmuOp.frame, EmuOp.press GameBoyButton.A, EmuOp.load "missing.gb"]
        loadedState).romLoaded = true :=
  ⟨rfl,
   (claim_C9_loaded_monotone testEngine testFs).1
     (EmuOp.load "missing.gb") loadedState rfl,
   (claim_C9_loaded_monotone testEngine testFs).2.2
     [EmuOp.frame, EmuOp.press GameBoyButton.A, EmuOp.load "missing.gb"]
     loadedState rfl⟩

end GameBoyMcp
